import Mathlib

/-!
Verification of the core numerical content of `pendulo_app.py` (fisicorj/pendulum).

The script simulates a simple gravity pendulum: it integrates
θ'' + (g/L)·sin θ = 0, and derives the harmonic approximation, the
kinetic/potential/total energy series, the phase-space vector field on a
fixed 40×40 grid, the separatrix curve, and the conserved energy of the
initial condition.

The shallow embedding below translates the numerical expressions of the
script into functions over `ℝ` (exact reals standing for the script's
floats; numpy arrays become `List ℝ` or index functions; numpy's
elementwise division, which produces a non-finite value when the
denominator is zero, becomes an `Option ℝ`).  The one piece of behaviour
not in the repository is `scipy.integrate.solve_ivp`; it is modelled from
the spec where a claim needs it.
-/

open Real

namespace PenduloApp

/-- The ODE right-hand side from `solve_pendulum` (line 50–51 of the source):
`pendulum(t, y) = [y[1], -(g/L)*sin(y[0])]`.  The state pair is
`(theta, omega)`.  Lean's total division makes this defined even at `L = 0`,
where the Python closure raises `ZeroDivisionError`; that error path is
modelled separately by `pendulumChecked`. -/
noncomputable def pendulum (g L : ℝ) (_t : ℝ) (y : ℝ × ℝ) : ℝ × ℝ :=
  (y.2, -(g / L) * Real.sin y.1)

/-- The same right-hand side with Python's division semantics: evaluating
`g / L` raises `ZeroDivisionError` when `L = 0`, modelled as `none`. -/
noncomputable def pendulumChecked (g L : ℝ) (_t : ℝ) (y : ℝ × ℝ) :
    Option (ℝ × ℝ) :=
  if L = 0 then none else some (y.2, -(g / L) * Real.sin y.1)

/-- Modelled from the spec: `scipy.integrate.solve_ivp` is external to the
repository.  Per the spec the solver is an explicit Runge–Kutta method of at
least fourth order that samples the continuous solution at exactly the
requested grid times, with `y(0) = y0` exactly.  We model one classical
fourth-order Runge–Kutta step of size `h` from state `y` at time `t`. -/
noncomputable def rk4Step (f : ℝ → ℝ × ℝ → ℝ × ℝ) (t : ℝ) (y : ℝ × ℝ) (h : ℝ) :
    ℝ × ℝ :=
  let k1 := f t y
  let k2 := f (t + h / 2) (y.1 + h / 2 * k1.1, y.2 + h / 2 * k1.2)
  let k3 := f (t + h / 2) (y.1 + h / 2 * k2.1, y.2 + h / 2 * k2.2)
  let k4 := f (t + h) (y.1 + h * k3.1, y.2 + h * k3.2)
  (y.1 + h / 6 * (k1.1 + 2 * k2.1 + 2 * k3.1 + k4.1),
   y.2 + h / 6 * (k1.2 + 2 * k2.2 + 2 * k3.2 + k4.2))

/-- Modelled from the spec: the states the integrator reports at the grid
times after the first, stepping from state `y` at time `t`. -/
noncomputable def integrateFrom (f : ℝ → ℝ × ℝ → ℝ × ℝ) :
    ℝ → ℝ × ℝ → List ℝ → List (ℝ × ℝ)
  | _, _, [] => []
  | t, y, t' :: ts =>
      let y' := rk4Step f t y (t' - t)
      y' :: integrateFrom f t' y' ts

/-- Modelled from the spec: `solve_ivp(f, span, y0, t_eval)` reports the state
at every grid time; the state at the first grid time is exactly `y0`. -/
noncomputable def solveIvp (f : ℝ → ℝ × ℝ → ℝ × ℝ) (y0 : ℝ × ℝ)
    (t_eval : List ℝ) : List (ℝ × ℝ) :=
  match t_eval with
  | [] => []
  | t0 :: ts => y0 :: integrateFrom f t0 y0 ts

/-- The result of the solver: the parallel `time`/`theta`/`omega` sequences
(`sol.t`, `sol.y[0]`, `sol.y[1]` in the source). -/
structure Trajectory where
  time : List ℝ
  theta : List ℝ
  omega : List ℝ

/-- The solver `solve_pendulum(g, L, theta0, omega0, t_eval)` (source lines
48–52): build the right-hand side closure from `g` and `L` and hand it to the
integrator together with the initial state `[theta0, omega0]` and the grid.
Note the source performs no validation of `g` or `L` whatsoever. -/
noncomputable def solve_pendulum (g L theta0 omega0 : ℝ) (t_eval : List ℝ) :
    Trajectory :=
  let ys := solveIvp (pendulum g L) (theta0, omega0) t_eval
  { time := t_eval, theta := ys.map Prod.fst, omega := ys.map Prod.snd }

/-- The solver call with the error path of the source's right-hand side:
`solve_ivp` evaluates the closure during initialization (at `(t0, y0)`), so a
`ZeroDivisionError` there — i.e. `L = 0` — aborts the whole call with no
result; otherwise the run proceeds exactly as `solve_pendulum`. -/
noncomputable def solve_pendulumChecked (g L theta0 omega0 : ℝ)
    (t_eval : List ℝ) : Option Trajectory :=
  match pendulumChecked g L 0 (theta0, omega0) with
  | none => none
  | some _ => some (solve_pendulum g L theta0 omega0 t_eval)

/-- Kinetic energy series (source line 59): `KE = 0.5 * m * (L * omega)**2`,
elementwise over the `omega` array. -/
noncomputable def KEseries (m L : ℝ) (omega : List ℝ) : List ℝ :=
  omega.map fun w => 0.5 * m * (L * w) ^ 2

/-- Potential energy series (source line 60):
`PE = m * g * (L - L * np.cos(theta))`, elementwise over the `theta` array. -/
noncomputable def PEseries (m g L : ℝ) (theta : List ℝ) : List ℝ :=
  theta.map fun th => m * g * (L - L * Real.cos th)

/-- Total energy series (source line 61): `TE = KE + PE`, numpy elementwise
addition of the two arrays. -/
noncomputable def TEseries (m g L : ℝ) (theta omega : List ℝ) : List ℝ :=
  List.zipWith (· + ·) (KEseries m L omega) (PEseries m g L theta)

/-- Natural frequency (source line 64): `omega_natural = np.sqrt(g / L)`. -/
noncomputable def omega_natural (g L : ℝ) : ℝ := Real.sqrt (g / L)

/-- Harmonic solution (source line 65):
`theta_harm = theta0 * np.cos(omega_natural * t_eval)`, elementwise over the
time grid; no integrator is involved in its definition. -/
noncomputable def theta_harm (g L theta0 : ℝ) (t_eval : List ℝ) : List ℝ :=
  t_eval.map fun t => theta0 * Real.cos (omega_natural g L * t)

/-- Numpy `np.linspace(a, b, n)` for `n ≥ 2`: point `i` is `a + i·(b−a)/(n−1)`,
over `ℚ` for the degree-valued grids (their endpoints and steps are exact
decimals). -/
def linspaceQ (a b : ℚ) (n : ℕ) (i : ℕ) : ℚ := a + i * ((b - a) / (n - 1))

/-- Vector-field grid (source line 87): `theta_vals = np.linspace(-180, 180, 40)`
(degrees). -/
def theta_vals (i : Fin 40) : ℚ := linspaceQ (-180) 180 40 i

/-- Vector-field grid (source line 88): `omega_vals = np.linspace(-360, 360, 40)`
(degrees per second). -/
def omega_vals (j : Fin 40) : ℚ := linspaceQ (-360) 360 40 j

/-- Numpy `np.radians(x) = x * π / 180`. -/
noncomputable def radians (x : ℚ) : ℝ := (x : ℝ) * π / 180

/-- The meshgrid abscissa (source line 89): `T = radians(theta_vals[i])` at
grid column `i`. -/
noncomputable def gridT (i : Fin 40) : ℝ := radians (theta_vals i)

/-- The meshgrid ordinate (source line 89): `W = radians(omega_vals[j])` at
grid row `j`. -/
noncomputable def gridW (j : Fin 40) : ℝ := radians (omega_vals j)

/-- Vector-field component (source line 90): `dT = W` at phase point `(T, W)`. -/
noncomputable def dT (_g _L _T W : ℝ) : ℝ := W

/-- Vector-field component (source line 91): `dW = -(g/L) * np.sin(T)`. -/
noncomputable def dW (g L T _W : ℝ) : ℝ := -(g / L) * Real.sin T

/-- Field magnitude (source line 92): `magnitude = np.hypot(dT, dW)`, i.e.
`sqrt(dT² + dW²)`. -/
noncomputable def magnitude (g L T W : ℝ) : ℝ :=
  Real.sqrt (dT g L T W ^ 2 + dW g L T W ^ 2)

/-- numpy elementwise float division: when the denominator is zero the result
is a non-finite value (`inf` or `nan`), not a real number; modelled as
`none`. -/
noncomputable def npDiv (x y : ℝ) : Option ℝ :=
  if y = 0 then none else some (x / y)

/-- Unit direction, first component (source line 93): `dT_unit = dT / magnitude`,
an unguarded division. -/
noncomputable def dT_unit (g L T W : ℝ) : Option ℝ :=
  npDiv (dT g L T W) (magnitude g L T W)

/-- Unit direction, second component (source line 94): `dW_unit = dW / magnitude`,
an unguarded division. -/
noncomputable def dW_unit (g L T W : ℝ) : Option ℝ :=
  npDiv (dW g L T W) (magnitude g L T W)

/-- Separatrix abscissa (source line 98): `theta_sep = np.linspace(-pi, pi, 500)`,
point `i` being `-π + i·(2π/499)`. -/
noncomputable def theta_sep (i : ℕ) : ℝ := -π + i * ((π - -π) / (500 - 1))

/-- Separatrix ordinate, positive branch (source line 99):
`omega_sep = np.sqrt(2 * g / L * (1 - np.cos(theta_sep)))`. -/
noncomputable def omega_sep (g L : ℝ) (i : ℕ) : ℝ :=
  Real.sqrt (2 * g / L * (1 - Real.cos (theta_sep i)))

/-- Separatrix ordinate, negative branch (source line 101): the source plots
`-omega_sep` as the curve's second half. -/
noncomputable def omega_sep_neg (g L : ℝ) (i : ℕ) : ℝ := -omega_sep g L i

/-- Current energy of the initial condition (source line 103):
`E = 0.5 * m * (L**2) * omega0**2 + m * g * L * (1 - np.cos(theta0))`. -/
noncomputable def currentEnergy (g L m theta0 omega0 : ℝ) : ℝ :=
  0.5 * m * L ^ 2 * omega0 ^ 2 + m * g * L * (1 - Real.cos theta0)

/-! ### Helper lemmas -/

lemma integrateFrom_length (f : ℝ → ℝ × ℝ → ℝ × ℝ) (ts : List ℝ) :
    ∀ (t : ℝ) (y : ℝ × ℝ), (integrateFrom f t y ts).length = ts.length := by
  induction ts with
  | nil => intro t y; rfl
  | cons t' ts ih => intro t y; simp [integrateFrom, ih]

lemma solveIvp_length (f : ℝ → ℝ × ℝ → ℝ × ℝ) (y0 : ℝ × ℝ) (ts : List ℝ) :
    (solveIvp f y0 ts).length = ts.length := by
  cases ts with
  | nil => rfl
  | cons t0 ts => simp [solveIvp, integrateFrom_length]

lemma omega_vals_ne_zero (j : Fin 40) : omega_vals j ≠ 0 := by
  intro h
  unfold omega_vals linspaceQ at h
  have h' : ((j : ℕ) : ℚ) * 720 = 14040 := by
    push_cast at h
    field_simp at h
    linarith
  have h2 : (j : ℕ) * 720 = 14040 := by exact_mod_cast h'
  omega

lemma gridW_ne_zero (j : Fin 40) : gridW j ≠ 0 := by
  have h : ((omega_vals j : ℚ) : ℝ) ≠ 0 := by
    exact_mod_cast omega_vals_ne_zero j
  rw [gridW, radians]
  simp [div_eq_zero_iff, mul_eq_zero, h, Real.pi_ne_zero]

lemma magnitude_pos (g L T W : ℝ) (hW : W ≠ 0) : 0 < magnitude g L T W := by
  rw [magnitude]
  apply Real.sqrt_pos.mpr
  have h1 : 0 < dT g L T W ^ 2 := by
    rw [dT]
    exact (sq_nonneg W).lt_of_ne' (pow_ne_zero 2 hW)
  have h2 : 0 ≤ dW g L T W ^ 2 := sq_nonneg _
  linarith

/-! ### Claim theorems -/

/-- C1: for any valid parameters (g > 0, L > 0), any initial state, and any
nonempty grid, `solve_pendulum` returns a trajectory whose `theta` and `omega`
sequences have the grid's length and whose first samples are exactly `theta0`
and `omega0`. -/
theorem solve_trajectory_shape_and_initial_state
    (g L theta0 omega0 : ℝ) (t_eval : List ℝ)
    (hg : 0 < g) (hL : 0 < L) (hne : t_eval ≠ []) :
    (solve_pendulum g L theta0 omega0 t_eval).theta.length = t_eval.length ∧
    (solve_pendulum g L theta0 omega0 t_eval).omega.length = t_eval.length ∧
    (solve_pendulum g L theta0 omega0 t_eval).theta.head? = some theta0 ∧
    (solve_pendulum g L theta0 omega0 t_eval).omega.head? = some omega0 := by
  cases t_eval with
  | nil => exact absurd rfl hne
  | cons t0 ts =>
      refine ⟨?_, ?_, ?_, ?_⟩ <;>
        simp [solve_pendulum, solveIvp, integrateFrom_length]

/-- Witness for C1: concrete run at g = 9.81, L = 1, theta0 = 1, omega0 = 2
on the one-point grid [0]. -/
theorem solve_trajectory_shape_and_initial_state_witness :
    (0 : ℝ) < 9.81 ∧ (0 : ℝ) < 1 ∧ ([(0 : ℝ)] ≠ []) ∧
    ((solve_pendulum 9.81 1 1 2 [0]).theta.length = [(0 : ℝ)].length ∧
     (solve_pendulum 9.81 1 1 2 [0]).omega.length = [(0 : ℝ)].length ∧
     (solve_pendulum 9.81 1 1 2 [0]).theta.head? = some 1 ∧
     (solve_pendulum 9.81 1 1 2 [0]).omega.head? = some 2) :=
  ⟨by norm_num, by norm_num, by simp,
   solve_trajectory_shape_and_initial_state 9.81 1 1 2 [0]
     (by norm_num) (by norm_num) (by simp)⟩

/-- C3 counterexample: called with gravity = −1 ≤ 0 (rod length 1), the
solver does not fail with any error — it returns a complete trajectory; here
on the one-point grid [0] it returns time = [0], theta = [1/2], omega = [0].
The source contains no parameter check at all. -/
theorem solve_no_invalid_parameter_failure :
    (solve_pendulum (-1) 1 (1 / 2) 0 [0]).time = [0] ∧
    (solve_pendulum (-1) 1 (1 / 2) 0 [0]).theta = [1 / 2] ∧
    (solve_pendulum (-1) 1 (1 / 2) 0 [0]).omega = [0] := by
  refine ⟨rfl, ?_, ?_⟩ <;> simp [solve_pendulum, solveIvp, integrateFrom]

/-- C3 amended: `solve_pendulum` performs no parameter validation and has no
`InvalidParameter` error kind; invalid gravity or rod length (≤ 0) is
excluded only upstream by the UI input bounds.  Called with gravity ≤ 0 or
rodLength ≤ 0 but rodLength ≠ 0, it neither fails nor clamps: it returns a
full-length trajectory whose first samples are exactly the given initial
state.  Only rodLength = 0 makes the call fail, and then with a
`ZeroDivisionError` raised from the closure inside the integration call —
not a pre-integration `InvalidParameter`. -/
theorem solve_no_validation_on_invalid_parameters
    (g L theta0 omega0 : ℝ) (t_eval : List ℝ)
    (hinv : g ≤ 0 ∨ L ≤ 0) (hne : t_eval ≠ []) :
    (L ≠ 0 →
      solve_pendulumChecked g L theta0 omega0 t_eval =
        some (solve_pendulum g L theta0 omega0 t_eval) ∧
      (solve_pendulum g L theta0 omega0 t_eval).theta.length = t_eval.length ∧
      (solve_pendulum g L theta0 omega0 t_eval).omega.length = t_eval.length ∧
      (solve_pendulum g L theta0 omega0 t_eval).theta.head? = some theta0 ∧
      (solve_pendulum g L theta0 omega0 t_eval).omega.head? = some omega0) ∧
    (L = 0 → solve_pendulumChecked g L theta0 omega0 t_eval = none) := by
  constructor
  · intro hL
    refine ⟨by simp [solve_pendulumChecked, pendulumChecked, hL], ?_⟩
    cases t_eval with
    | nil => exact absurd rfl hne
    | cons t0 ts =>
        refine ⟨?_, ?_, ?_, ?_⟩ <;>
          simp [solve_pendulum, solveIvp, integrateFrom_length]
  · intro hL
    simp [solve_pendulumChecked, pendulumChecked, hL]

/-- Witness for the amended C3 at gravity = −1 ≤ 0, rod length 1, grid [0]. -/
theorem solve_no_validation_on_invalid_parameters_witness :
    ((-1 : ℝ) ≤ 0 ∨ (1 : ℝ) ≤ 0) ∧ ([(0 : ℝ)] ≠ []) ∧
    (((1 : ℝ) ≠ 0 →
       solve_pendulumChecked (-1) 1 3 4 [0] =
         some (solve_pendulum (-1) 1 3 4 [0]) ∧
       (solve_pendulum (-1) 1 3 4 [0]).theta.length = [(0 : ℝ)].length ∧
       (solve_pendulum (-1) 1 3 4 [0]).omega.length = [(0 : ℝ)].length ∧
       (solve_pendulum (-1) 1 3 4 [0]).theta.head? = some 3 ∧
       (solve_pendulum (-1) 1 3 4 [0]).omega.head? = some 4) ∧
     ((1 : ℝ) = 0 → solve_pendulumChecked (-1) 1 3 4 [0] = none)) :=
  ⟨Or.inl (by norm_num), by simp,
   solve_no_validation_on_invalid_parameters (-1) 1 3 4 [0]
     (Or.inl (by norm_num)) (by simp)⟩

/-- C9: `solve_pendulum` is deterministic — it is a pure function of exactly
its five inputs (gravity, rod length, theta0, omega0, grid), so two calls on
identical inputs produce identical output trajectories. -/
theorem solve_deterministic
    (g1 L1 a1 b1 : ℝ) (t1 : List ℝ) (g2 L2 a2 b2 : ℝ) (t2 : List ℝ)
    (hg : g1 = g2) (hL : L1 = L2) (ha : a1 = a2) (hb : b1 = b2) (ht : t1 = t2) :
    solve_pendulum g1 L1 a1 b1 t1 = solve_pendulum g2 L2 a2 b2 t2 := by
  subst hg; subst hL; subst ha; subst hb; subst ht; rfl

/-- Witness for C9 at concrete equal inputs. -/
theorem solve_deterministic_witness :
    (9.81 : ℝ) = 9.81 ∧ (1 : ℝ) = 1 ∧ (1 / 2 : ℝ) = 1 / 2 ∧ (0 : ℝ) = 0 ∧
    ([(0 : ℝ), 1] = [0, 1]) ∧
    solve_pendulum 9.81 1 (1 / 2) 0 [0, 1] = solve_pendulum 9.81 1 (1 / 2) 0 [0, 1] :=
  ⟨rfl, rfl, rfl, rfl, rfl,
   solve_deterministic 9.81 1 (1 / 2) 0 [0, 1] 9.81 1 (1 / 2) 0 [0, 1]
     rfl rfl rfl rfl rfl⟩

/-- C2 counterexample: evaluated at (θ = 0, ω = 0) — the point the claim
singles out — the field magnitude is 0, and the unguarded divisions
`dT / magnitude` and `dW / magnitude` yield no real value at all (numpy
produces NaN), not the zero direction vector the claim promises; the source
has no zero-magnitude guard. -/
theorem vector_field_unguarded_at_origin :
    magnitude 9.81 1 0 0 = 0 ∧
    dT_unit 9.81 1 0 0 = none ∧ dW_unit 9.81 1 0 0 = none := by
  have hmag : magnitude 9.81 1 0 0 = 0 := by
    simp [magnitude, dT, dW]
  exact ⟨hmag, by simp [dT_unit, npDiv, hmag], by simp [dW_unit, npDiv, hmag]⟩

/-- C2 amended: the vector-field block has no zero-magnitude guard, and none
is ever exercised: every grid point the code actually builds has nonzero
magnitude (its ω component is never 0), so at every grid point the emitted
direction is the well-defined unit vector (dθ, dω)/magnitude with
magnitude = hypot(ω, −(g/L)·sin θ); at a zero-magnitude phase point such as
(θ = 0, ω = 0) — which is not on the grid — the unguarded division would be
undefined (NaN), not a zero vector. -/
theorem vector_field_grid_directions (g L : ℝ) (hg : 0 < g) (hL : 0 < L)
    (i j : Fin 40) :
    magnitude g L (gridT i) (gridW j) =
      Real.sqrt (gridW j ^ 2 + (-(g / L) * Real.sin (gridT i)) ^ 2) ∧
    magnitude g L (gridT i) (gridW j) ≠ 0 ∧
    dT_unit g L (gridT i) (gridW j) =
      some (dT g L (gridT i) (gridW j) / magnitude g L (gridT i) (gridW j)) ∧
    dW_unit g L (gridT i) (gridW j) =
      some (dW g L (gridT i) (gridW j) / magnitude g L (gridT i) (gridW j)) := by
  have hpos : 0 < magnitude g L (gridT i) (gridW j) :=
    magnitude_pos g L (gridT i) (gridW j) (gridW_ne_zero j)
  refine ⟨rfl, hpos.ne', ?_, ?_⟩
  · simp [dT_unit, npDiv, hpos.ne']
  · simp [dW_unit, npDiv, hpos.ne']

/-- Witness for the amended C2 at g = 9.81, L = 1, grid corner (0, 0). -/
theorem vector_field_grid_directions_witness :
    (0 : ℝ) < 9.81 ∧ (0 : ℝ) < 1 ∧
    (magnitude 9.81 1 (gridT 0) (gridW 0) =
       Real.sqrt (gridW 0 ^ 2 + (-(9.81 / 1) * Real.sin (gridT 0)) ^ 2) ∧
     magnitude 9.81 1 (gridT 0) (gridW 0) ≠ 0 ∧
     dT_unit 9.81 1 (gridT 0) (gridW 0) =
       some (dT 9.81 1 (gridT 0) (gridW 0) / magnitude 9.81 1 (gridT 0) (gridW 0)) ∧
     dW_unit 9.81 1 (gridT 0) (gridW 0) =
       some (dW 9.81 1 (gridT 0) (gridW 0) / magnitude 9.81 1 (gridT 0) (gridW 0))) :=
  ⟨by norm_num, by norm_num,
   vector_field_grid_directions 9.81 1 (by norm_num) (by norm_num) 0 0⟩

/-- C5: at every index of the input trajectory, the energy series are
KE[i] = 0.5·m·(L·ω[i])², PE[i] = m·g·L·(1 − cos θ[i]) (zero reference at the
lowest point), and TE[i] = KE[i] + PE[i] exactly by construction. -/
theorem energy_series_pointwise (m g L : ℝ) (theta omega : List ℝ) (i : ℕ)
    (hth : i < theta.length) (hom : i < omega.length) :
    (KEseries m L omega)[i]? = some (0.5 * m * (L * omega[i]) ^ 2) ∧
    (PEseries m g L theta)[i]? = some (m * g * L * (1 - Real.cos theta[i])) ∧
    (TEseries m g L theta omega)[i]? =
      some (0.5 * m * (L * omega[i]) ^ 2 + m * g * L * (1 - Real.cos theta[i])) := by
  have hK : i < (KEseries m L omega).length := by simpa [KEseries] using hom
  have hP : i < (PEseries m g L theta).length := by simpa [PEseries] using hth
  refine ⟨?_, ?_, ?_⟩
  · rw [KEseries, List.getElem?_map, List.getElem?_eq_getElem hom]
    rfl
  · rw [PEseries, List.getElem?_map, List.getElem?_eq_getElem hth]
    simp only [Option.map_some']
    congr 1
    ring
  · rw [TEseries, List.getElem?_zipWith, List.getElem?_eq_getElem hK,
      List.getElem?_eq_getElem hP]
    simp only [KEseries, PEseries, List.getElem_map, Option.bind_some,
      Option.map_some']
    congr 1
    ring

/-- Witness for C5 at m = 2, g = 3, L = 5, theta = [π], omega = [7], i = 0. -/
theorem energy_series_pointwise_witness :
    0 < ([(π : ℝ)]).length ∧ 0 < ([(7 : ℝ)]).length ∧
    ((KEseries 2 5 [7])[0]? = some (0.5 * 2 * (5 * (7 : ℝ)) ^ 2) ∧
     (PEseries 2 3 5 [π])[0]? = some (2 * 3 * 5 * (1 - Real.cos π)) ∧
     (TEseries 2 3 5 [π] [7])[0]? =
       some (0.5 * 2 * (5 * (7 : ℝ)) ^ 2 + 2 * 3 * 5 * (1 - Real.cos π))) := by
  have h := energy_series_pointwise 2 3 5 [π] [7] 0 (by simp) (by simp)
  exact ⟨by simp, by simp, by simpa using h⟩

/-- C6: the separatrix abscissa is a uniform 500-point sequence spanning
[−π, π] (first point −π, last point π, constant spacing 2π/499), the positive
branch is ω_sep(θ) = sqrt(2·(g/L)·(1 − cos θ)), and the plotted second half
is its negation. -/
theorem separatrix_curve (g L : ℝ) (i : ℕ) (h : i + 1 < 500) :
    theta_sep 0 = -π ∧
    theta_sep 499 = π ∧
    theta_sep (i + 1) - theta_sep i = 2 * π / 499 ∧
    omega_sep g L i = Real.sqrt (2 * (g / L) * (1 - Real.cos (theta_sep i))) ∧
    omega_sep_neg g L i = -omega_sep g L i := by
  refine ⟨by simp [theta_sep], ?_, ?_, ?_, rfl⟩
  · rw [theta_sep]
    have h499 : (499 : ℝ) ≠ 0 := by norm_num
    push_cast
    field_simp
    ring
  · rw [theta_sep, theta_sep]
    push_cast
    have h499 : (499 : ℝ) ≠ 0 := by norm_num
    field_simp
    ring
  · rw [omega_sep]
    congr 1
    ring

/-- Witness for C6 at g = 1, L = 1, i = 0. -/
theorem separatrix_curve_witness :
    0 + 1 < 500 ∧
    (theta_sep 0 = -π ∧
     theta_sep 499 = π ∧
     theta_sep (0 + 1) - theta_sep 0 = 2 * π / 499 ∧
     omega_sep 1 1 0 = Real.sqrt (2 * (1 / 1) * (1 - Real.cos (theta_sep 0))) ∧
     omega_sep_neg 1 1 0 = -omega_sep 1 1 0) :=
  ⟨by norm_num, separatrix_curve 1 1 0 (by norm_num)⟩

/-- C7: at every grid index, the harmonic series — defined with no call to
the integrator — is theta_harm[i] = theta0 · cos(sqrt(g/L) · grid[i]). -/
theorem harmonic_approximation_pointwise (g L theta0 : ℝ) (t_eval : List ℝ)
    (i : ℕ) (h : i < t_eval.length) :
    (theta_harm g L theta0 t_eval)[i]? =
      some (theta0 * Real.cos (Real.sqrt (g / L) * t_eval[i])) := by
  rw [theta_harm, List.getElem?_map, List.getElem?_eq_getElem h]
  rfl

/-- Witness for C7 at g = 4, L = 1, theta0 = 3, grid [0], i = 0. -/
theorem harmonic_approximation_pointwise_witness :
    0 < ([(0 : ℝ)]).length ∧
    (theta_harm 4 1 3 [0])[0]? = some 3 := by
  have h := harmonic_approximation_pointwise 4 1 3 [0] 0 (by simp)
  exact ⟨by simp, by simpa using h⟩

/-- C8: `currentEnergy` is the single-point value
0.5·m·L²·ω0² + m·g·L·(1 − cos θ0) — it takes only the parameters and the
initial state, no trajectory — and at g = 9.81, L = 1, m = 1, θ0 = π, ω0 = 0
it equals 19.62. -/
theorem current_energy_formula_and_scenario :
    (∀ g L m theta0 omega0 : ℝ,
        currentEnergy g L m theta0 omega0 =
          0.5 * m * L ^ 2 * omega0 ^ 2 + m * g * L * (1 - Real.cos theta0)) ∧
    currentEnergy 9.81 1 1 π 0 = 19.62 := by
  refine ⟨fun g L m theta0 omega0 => rfl, ?_⟩
  rw [currentEnergy, Real.cos_pi]
  norm_num

/-- C10: on the 40×40 grid the code actually builds, no grid point has a zero
ω component (ω = 0 would need index 19.5 on the 40-point span of [−360, 360]),
so for g > 0, L > 0 the field magnitude is strictly positive at every grid
point and the unguarded divisions `dT/magnitude`, `dW/magnitude` always
produce a value — they never divide by zero. -/
theorem vector_field_grid_magnitude_pos (g L : ℝ) (hg : 0 < g) (hL : 0 < L)
    (i j : Fin 40) :
    omega_vals j ≠ 0 ∧
    gridW j ≠ 0 ∧
    0 < magnitude g L (gridT i) (gridW j) ∧
    (dT_unit g L (gridT i) (gridW j)).isSome = true ∧
    (dW_unit g L (gridT i) (gridW j)).isSome = true := by
  have hW : gridW j ≠ 0 := gridW_ne_zero j
  have hpos : 0 < magnitude g L (gridT i) (gridW j) :=
    magnitude_pos g L (gridT i) (gridW j) hW
  refine ⟨omega_vals_ne_zero j, hW, hpos, ?_, ?_⟩
  · simp [dT_unit, npDiv, hpos.ne']
  · simp [dW_unit, npDiv, hpos.ne']

/-- Witness for C10 at g = 9.81, L = 1, grid corner (0, 0). -/
theorem vector_field_grid_magnitude_pos_witness :
    (0 : ℝ) < 9.81 ∧ (0 : ℝ) < 1 ∧
    (omega_vals 0 ≠ 0 ∧
     gridW 0 ≠ 0 ∧
     0 < magnitude 9.81 1 (gridT 0) (gridW 0) ∧
     (dT_unit 9.81 1 (gridT 0) (gridW 0)).isSome = true ∧
     (dW_unit 9.81 1 (gridT 0) (gridW 0)).isSome = true) :=
  ⟨by norm_num, by norm_num,
   vector_field_grid_magnitude_pos 9.81 1 (by norm_num) (by norm_num) 0 0⟩

end PenduloApp
